import Mathlib

/-!
Shallow embedding of the Abbott FreeStyle Neo mobile driver
(`example/lib/drivers/abbott/abbottFreeStyleNeoMobile.js`) and of the
FreeStyle protocol layer (`freeStyleLibreProtocolMobile.js`) bundled in the
same source file.  Strings are modelled as `List Char`, byte sequences as
`List Nat`, and the JavaScript `parseInt` / `trim` / `split` semantics are
reproduced for the inputs these functions can receive.  Asynchronous I/O is
modelled by an explicit oracle (`Nat → Int`, the result of the n-th
`usbModule.writeData` call) together with a state record that counts write
and close calls and accumulates an event trace.
-/

namespace NeoDriver

/-- JavaScript whitespace recognized by `String.prototype.trim` restricted to
the ASCII range (space, tab, LF, VT, FF, CR).  The driver only ever feeds
ASCII data to `trim`, where this coincides with the JS definition. -/
def isJsSpace (c : Char) : Bool :=
  c = ' ' || c = '\t' || c = '\n' || c = Char.ofNat 11 || c = Char.ofNat 12 || c = '\r'

/-- Model of `String.prototype.trim`: drop leading and trailing whitespace. -/
def jsTrim (s : List Char) : List Char :=
  ((s.dropWhile isJsSpace).reverse.dropWhile isJsSpace).reverse

/-- Numeric value of a decimal digit character. -/
def digitVal (c : Char) : Nat := c.toNat - 48

/-- Value of a list of decimal digit characters, most significant first. -/
def digitsVal (ds : List Char) : Nat :=
  ds.foldl (fun acc c => acc * 10 + digitVal c) 0

/-- Parse the maximal leading run of decimal digits; `none` when there is no
digit (JS `parseInt` returns `NaN` in that case). -/
def parseDecDigits (s : List Char) : Option Nat :=
  let ds := s.takeWhile Char.isDigit
  if ds.isEmpty then none else some (digitsVal ds)

/-- Hexadecimal digit predicate (both cases), as accepted by JS `parseInt`
when it auto-detects a `0x` prefix. -/
def isHexChar (c : Char) : Bool :=
  c.isDigit || ('a' ≤ c && c ≤ 'f') || ('A' ≤ c && c ≤ 'F')

/-- Numeric value of a hexadecimal digit character. -/
def hexVal (c : Char) : Nat :=
  if c.isDigit then c.toNat - 48
  else if 'a' ≤ c && c ≤ 'f' then c.toNat - 87
  else c.toNat - 55

/-- Value of a list of hexadecimal digit characters, most significant first. -/
def hexDigitsVal (ds : List Char) : Nat :=
  ds.foldl (fun acc c => acc * 16 + hexVal c) 0

/-- Parse the maximal leading run of hexadecimal digits. -/
def parseHexDigits (s : List Char) : Option Nat :=
  let ds := s.takeWhile isHexChar
  if ds.isEmpty then none else some (hexDigitsVal ds)

/-- Model of JavaScript `parseInt(s)` with no radix argument: skip leading
whitespace, accept an optional sign, auto-detect a `0x`/`0X` prefix (radix
16), otherwise read a decimal digit prefix; `none` models `NaN`. -/
def jsParseInt (s : List Char) : Option Int :=
  let t := s.dropWhile isJsSpace
  let signAndRest : Int × List Char :=
    match t with
    | '-' :: rest => (-1, rest)
    | '+' :: rest => (1, rest)
    | _ => (1, t)
  let sign := signAndRest.1
  let u := signAndRest.2
  match u with
  | '0' :: x :: rest =>
    if x = 'x' || x = 'X' then
      (parseHexDigits rest).map (fun n => sign * (n : Int))
    else
      (parseDecDigits u).map (fun n => sign * (n : Int))
  | _ => (parseDecDigits u).map (fun n => sign * (n : Int))

/-- `jsParseInt` on an optional field: a missing field is JS `undefined`,
and `parseInt(undefined)` is `NaN`. -/
def jsParseIntOpt (s : Option (List Char)) : Option Int :=
  match s with
  | some t => jsParseInt t
  | none => none

/-! ## Record parsing (`parseRecord` / `processRecords`, driver lines 231-309)

`parseRecord` splits the comma-delimited line, rejects lines with fewer than
8 fields, parses the common header fields, and then dispatches on the record
type.  The source declares `const processedRecord = {...}` and the three
`switch` cases `7`, `9`, `6` each *assign* to that `const` binding
(`processedRecord = this.processGlucoseRecord(...)` etc.); in JavaScript an
assignment to a `const` binding throws a `TypeError`, which the surrounding
`try`/`catch` turns into a `null` return.  The embedding therefore returns
`none` exactly on those three type codes (when the 8-field guard passed). -/

/-- Common fields of a parsed record (driver lines 267-283).  `Option Int`
models a JS number that may be `NaN`; `seconds` uses `parseInt(f7) || 0`,
which collapses `NaN` (and `0`) to `0`. -/
structure BaseRecord where
  rtype : Option Int
  idx : Option Int
  month : Option Int
  day : Option Int
  year : Option Int
  hours : Option Int
  minutes : Option Int
  seconds : Int
  raw : List Char
deriving Repr, DecidableEq

/-- Embedding of `parseRecord` (driver lines 258-309). -/
def parseRecord (record : List Char) : Option BaseRecord :=
  let fields := record.splitOn ','
  if fields.length < 8 then none
  else
    let recordType := jsParseInt (fields.getD 0 [])
    -- switch cases 7 / 9 / 6 assign to the const binding `processedRecord`:
    -- TypeError, caught, null returned
    if recordType = some 7 ∨ recordType = some 9 ∨ recordType = some 6 then none
    else
      some
        { rtype := recordType
          idx := jsParseInt (fields.getD 1 [])
          month := jsParseInt (fields.getD 2 [])
          day := jsParseInt (fields.getD 3 [])
          year := (jsParseInt (fields.getD 4 [])).map (· + 2000)
          hours := jsParseInt (fields.getD 5 [])
          minutes := jsParseInt (fields.getD 6 [])
          seconds := (jsParseInt (fields.getD 7 [])).getD 0
          raw := record }

/-- Embedding of `processRecords` (driver lines 231-255): push each record
for which `parseRecord` yields a non-null value; `parseRecord` never throws
(it has its own catch-all returning `null`). -/
def processRecords (records : List (List Char)) : List BaseRecord :=
  records.filterMap parseRecord

/-- Out-of-range direction of a glucose annotation marker. -/
inductive RangeTag where
  | high
  | low
deriving Repr, DecidableEq

/-- An out-of-range marker (`code: 'bg/out-of-range'`) with its threshold. -/
structure RangeMark where
  tag : RangeTag
  threshold : Int
deriving Repr, DecidableEq

/-- A processed glucose record (driver lines 351-364).  Device metadata and
the formatted `deviceTime` string are elided: they copy `this.deviceInfo`
and reformat the timestamp, and no claim depends on them. -/
structure GlucoseRecord where
  base : BaseRecord
  value : Int
  isControlSolution : Bool
  marks : List RangeMark
deriving Repr, DecidableEq

/-- Embedding of `processGlucoseRecord` (driver lines 312-370), taken in
isolation (in the driver its result is discarded by the `const`
reassignment).  The value is read from `fields[8]` and the control-solution
flag from `fields[10]`; a missing field is JS `undefined` (`none`). -/
def processGlucoseRecord (fields : List (List Char)) (base : BaseRecord) :
    Option GlucoseRecord :=
  let value := fields.get? 8
  let isControlSolution := jsParseIntOpt (fields.get? 10) = some 0
  if isControlSolution then none
  else
    match value with
    | none => none   -- undefined: not 'HI', not 'LO', parseInt gives NaN, null
    | some v =>
      if v = "HI".toList then
        some { base := base, value := 501, isControlSolution := false
               marks := [{ tag := RangeTag.high, threshold := 500 }] }
      else if v = "LO".toList then
        some { base := base, value := 19, isControlSolution := false
               marks := [{ tag := RangeTag.low, threshold := 20 }] }
      else
        match jsParseInt v with
        | none => none
        | some n =>
          some { base := base, value := n, isControlSolution := false, marks := [] }

/-! ## Text-response parsing (`parseTextResponse`, driver lines 680-703)

The source matches the response against the anchored regular expression
`^([^\r]*)\r\nCKSM:([0-9A-F]{8})\r\nCMD (OK|Fail!)\r\n`.  Because `[^\r]*`
cannot contain a carriage return and the next regex token is `\r`, the first
group is exactly the maximal CR-free prefix, so the match is deterministic
and is embedded by explicit prefix checks (trailing input after the final
`\r\n` is allowed, as with `String.prototype.match`). -/

/-- `startsWithList pat s` is true when `pat` is a prefix of `s`. -/
def startsWithList : List Char → List Char → Bool
  | [], _ => true
  | _ :: _, [] => false
  | p :: ps, c :: cs => p = c && startsWithList ps cs

/-- Uppercase hexadecimal digit, the character class `[0-9A-F]` of the
response regex. -/
def isHexUpper (c : Char) : Bool :=
  c.isDigit || ('A' ≤ c && c ≤ 'F')

/-- Deterministic embedding of matching the driver's response regex: on
success returns (data, checksum digits, status text). -/
def matchTextResponse (s : List Char) : Option (List Char × List Char × List Char) :=
  let data := s.takeWhile (fun c => c ≠ '\r')
  let rest := s.drop data.length
  if startsWithList ("\r\nCKSM:").toList rest then
    let afterCksmTag := rest.drop 7
    let cksm := afterCksmTag.take 8
    if cksm.length = 8 && cksm.all isHexUpper then
      let afterCksm := afterCksmTag.drop 8
      if startsWithList ("\r\nCMD ").toList afterCksm then
        let statusPart := afterCksm.drop 6
        if startsWithList ("OK\r\n").toList statusPart then
          some (data, cksm, ("OK").toList)
        else if startsWithList ("Fail!\r\n").toList statusPart then
          some (data, cksm, ("Fail!").toList)
        else none
      else none
    else none
  else none

/-- Embedding of `parseTextResponse` (driver lines 680-703): `null` for an
empty/blank response, `null` when the regex does not match, `null` when the
status group is not `OK`, otherwise the data group.  The checksum group is
matched but its value is never inspected. -/
def parseTextResponse (response : List Char) : Option (List Char) :=
  if (jsTrim response).isEmpty then none
  else
    match matchTextResponse response with
    | none => none
    | some (data, _cksm, status) =>
      if status = ("OK").toList then some data else none

/-- Model of `String.prototype.split("\r\n")`: cut the string at every
non-overlapping occurrence of CR LF. -/
def splitOnCRLF : List Char → List (List Char)
  | [] => [[]]
  | '\r' :: '\n' :: rest => [] :: splitOnCRLF rest
  | c :: rest =>
    match splitOnCRLF rest with
    | [] => [[c]]
    | seg :: segs => (c :: seg) :: segs

/-! ## Frame construction (protocol lines 960-977 and 1016-1031) -/

/-- Embedding of `createHIDFrame(command, data)` (protocol lines 961-977):
a 64-entry array filled with zero, entry 0 set to the command; when a
non-empty payload is given, entry 1 is set to the full payload length and
at most `FRAME_SIZE - 2 = 62` payload bytes are copied from offset 2.  No
length check is performed: an over-long payload is silently truncated. -/
def createHIDFrame (command : Nat) (data : Option (List Nat)) : List Nat :=
  match data with
  | some d =>
    if 0 < d.length then
      command :: d.length :: (d.take 62 ++ List.replicate (62 - d.length) 0)
    else
      command :: List.replicate 63 0
  | none => command :: List.replicate 63 0

/-- Embedding of `createTextCommandFrame(command)` (protocol lines
1016-1031): opcode `0x21`, entry 1 always the command length, at most 62
command bytes copied from offset 2. -/
def createTextCommandFrame (command : List Char) : List Nat :=
  let commandBytes := command.map Char.toNat
  0x21 :: commandBytes.length ::
    (commandBytes.take 62 ++ List.replicate (62 - commandBytes.length) 0)

/-! ## Transport model and initialization handshake

`usbModule.writeData` is modelled by an oracle `w : Nat → Int` giving the
byte count returned by the n-th write of the session; negative means
failure, as in the source.  Reads never influence control flow in the
connect path (`readInitResponse` and the wake-up read swallow every error
and their results are only logged), so they appear in the event trace but
take no oracle.  `closeDevice` calls are counted.  Delays (`this.delay(ms)`)
are recorded as trace events. -/

/-- One observable transport event: a write of a byte frame with its
returned byte count, a delay of some milliseconds, or a read attempt. -/
inductive Ev where
  | wr (frame : List Nat) (result : Int)
  | pause (ms : Nat)
  | rd
deriving Repr, DecidableEq

/-- Session-wide instrumentation state: number of writes so far (indexing
the oracle), number of `closeDevice` calls, and the event trace. -/
structure ProtoSt where
  wcount : Nat
  closeCalls : Nat
  trace : List Ev
deriving Repr, DecidableEq

/-- The initial instrumentation state. -/
def st0 : ProtoSt := { wcount := 0, closeCalls := 0, trace := [] }

/-- Perform one `usbModule.writeData` call against the oracle. -/
def doWrite (w : Nat → Int) (frame : List Nat) (st : ProtoSt) : Int × ProtoSt :=
  let r := w st.wcount
  (r, { st with wcount := st.wcount + 1, trace := st.trace ++ [Ev.wr frame r] })

/-- Record one `this.delay(ms)` call. -/
def doPause (ms : Nat) (st : ProtoSt) : ProtoSt :=
  { st with trace := st.trace ++ [Ev.pause ms] }

/-- Record one `usbModule.readData` call (result ignored on this path). -/
def doRead (st : ProtoSt) : ProtoSt :=
  { st with trace := st.trace ++ [Ev.rd] }

/-- The init opcodes of `INIT_SEQUENCE` (protocol lines 767-773). -/
def initSeqCmds : List Nat := [0x04, 0x05, 0x15, 0x01, 0x00]

/-- The retry loop of `sendInitCommand` (protocol lines 897-915), unrolled:
`while (attempts < 3 && bytesWritten < 0)` writes the frame, and after a
failed attempt other than the last waits `RETRY_DELAY = 1000` ms.  Returns
the last byte count. -/
def tryWriteRetries (w : Nat → Int) (frame : List Nat) (st : ProtoSt) : Int × ProtoSt :=
  let a1 := doWrite w frame st
  if 0 ≤ a1.1 then a1
  else
    let a2 := doWrite w frame (doPause 1000 a1.2)
    if 0 ≤ a2.1 then a2
    else
      doWrite w frame (doPause 1000 a2.2)

/-- Embedding of `sendInitCommand` (protocol lines 888-938): build the HID
frame for the opcode, write with up to 3 attempts, report failure if the
final byte count is still negative; after a successful write of a non-ACK
opcode attempt one tolerated read (`readInitResponse`). -/
def sendInitCommand (w : Nat → Int) (command : Nat) (st : ProtoSt) : Bool × ProtoSt :=
  let frame := createHIDFrame command none
  let res := tryWriteRetries w frame st
  if res.1 < 0 then (false, res.2)
  else if command ≠ 0 then (true, doRead res.2)
  else (true, res.2)

/-- Embedding of `sendWakeUpCommand` (protocol lines 851-885): one write of
the zero opcode frame whose result is only logged, a 500 ms delay, and one
tolerated read.  Its boolean result is ignored by the caller. -/
def sendWakeUpCommand (w : Nat → Int) (st : ProtoSt) : ProtoSt :=
  let res := doWrite w (createHIDFrame 0 none) st
  doRead (doPause 500 res.2)

/-- The command loop of `executeInitSequence` (protocol lines 826-839):
send each opcode in order, stopping with failure as soon as one
`sendInitCommand` reports failure (the source then throws), and waiting
`RETRY_DELAY` between commands. -/
def runInitCmds (w : Nat → Int) (cmds : List Nat) (st : ProtoSt) : Bool × ProtoSt :=
  match cmds with
  | [] => (true, st)
  | c :: rest =>
    let res := sendInitCommand w c st
    if res.1 then runInitCmds w rest (doPause 1000 res.2)
    else (false, res.2)

/-- Embedding of `executeInitSequence` (protocol lines 817-848): wake-up,
a 60000 ms delay, then the five init commands in order.  `false` models the
thrown error (rethrown by `initCommunication` on both layers). -/
def executeInitSequence (w : Nat → Int) (st : ProtoSt) : Bool × ProtoSt :=
  let st1 := sendWakeUpCommand w st
  let st2 := doPause 60000 st1
  runInitCmds w initSeqCmds st2

/-- Result of the USB open/claim steps of `connectToDevice` (driver lines
79-102), modelled as two booleans. -/
structure UsbFlags where
  openOk : Bool
  claimOk : Bool
deriving Repr, DecidableEq

/-- The distinct failure exits of `connect` (driver lines 28-76). -/
inductive ConnectErr where
  | openFailed
  | claimFailed
  | initFailed
  | unstable
deriving Repr, DecidableEq

/-- Embedding of `connect` (driver lines 28-76): open the device and claim
interface 0 (`connectToDevice`), run the protocol initialization
(`initCommunication`, which runs `executeInitSequence`), then verify
stability with a single test write of `[0x04, 0x00]` (`verifyConnection`).
The `catch` block of the source only resets `isConnected` and rethrows: no
exit path of `connect` calls `closeDevice`, so `closeCalls` is untouched. -/
def connect (u : UsbFlags) (w : Nat → Int) (st : ProtoSt) :
    Except ConnectErr Unit × ProtoSt :=
  if !u.openOk then (Except.error ConnectErr.openFailed, st)
  else if !u.claimOk then (Except.error ConnectErr.claimFailed, st)
  else
    let res := executeInitSequence w st
    if !res.1 then (Except.error ConnectErr.initFailed, res.2)
    else
      let vres := doWrite w [0x04, 0x00] res.2
      if vres.1 < 0 then (Except.error ConnectErr.unstable, vres.2)
      else (Except.ok (), vres.2)

/-! ## Disconnect (driver lines 725-743) -/

/-- Driver object state relevant to `disconnect`: whether `this.deviceInfo`
is non-null, the `isConnected` flag, and a count of `closeDevice` calls. -/
structure DriverState where
  hasDevice : Bool
  isConnected : Bool
  closeCalls : Nat
deriving Repr, DecidableEq

/-- Embedding of `disconnect` (driver lines 725-743): call `closeDevice`
only when `this.deviceInfo` is set, then clear `isConnected` and
`deviceInfo`.  With the transport's `close` returning a boolean (as the
interface declares), the body never throws. -/
def disconnect (s : DriverState) : DriverState :=
  let s1 := if s.hasDevice then { s with closeCalls := s.closeCalls + 1 } else s
  { s1 with hasDevice := false, isConnected := false }

/-! ## Text requests (protocol lines 980-1013) -/

/-- The byte-to-text conversion of `requestTextResponse` (protocol line
1004): keep only bytes between 32 and 126 and convert each to its
character. -/
def bytesToText (response : List Nat) : List Char :=
  (response.filter (fun b => decide (32 ≤ b) && decide (b ≤ 126))).map Char.ofNat

/-- Failure exits of `requestTextResponse`. -/
inductive ReqErr where
  | notInitialized
  | writeFailed
  | emptyResponse
deriving Repr, DecidableEq

/-- Embedding of `requestTextResponse` (protocol lines 980-1013):
fail when the protocol is not initialized, when the text-command frame
write returns a negative count, or when the read yields no bytes; otherwise
return the filtered printable-ASCII text of the read bytes.  `writeRes` is
the byte count of the single write, `readResp` the bytes read. -/
def requestTextResponse (isInit : Bool) (writeRes : Int) (readResp : List Nat) :
    Except ReqErr (List Char) :=
  if !isInit then Except.error ReqErr.notInitialized
  else if writeRes < 0 then Except.error ReqErr.writeFailed
  else if readResp.length = 0 then Except.error ReqErr.emptyResponse
  else Except.ok (bytesToText readResp)

/-! ## Derived observations used by the theorems -/

/-- The opcode (byte 0) of every frame written in a trace, in order. -/
def opcodesOf (tr : List Ev) : List Nat :=
  tr.filterMap (fun e => match e with | Ev.wr f _ => f.head? | _ => none)

/-- A transport whose first two writes succeed (wake-up and init command
`0x04`) and whose every later write returns a negative byte count, so all
three attempts for init command `0x05` fail. -/
def failTransport : Nat → Int := fun n => if n ≤ 1 then 64 else -1

/-- A well-formed glucose record line whose control-solution field
(field 10) is `1`, i.e. a normal patient reading. -/
def glucoseNormalLine : List Char := ("7,2,6,15,24,10,30,0,100,0,1").toList

/-- A glucose record line whose control-solution field (field 10) is `0`,
i.e. a control-solution reading. -/
def glucoseControlLine : List Char := ("7,3,6,15,24,10,30,0,100,0,0").toList

/-- The spec's HI glucose example line. -/
def glucoseHiLine : List Char := ("7,1,6,15,24,10,30,HI,0,0,0").toList

/-- The spec's LO glucose example line. -/
def glucoseLoLine : List Char := ("7,1,6,15,24,10,30,LO,0,0,0").toList

/-! ## Helper lemmas -/

theorem closeCalls_doWrite (w : Nat → Int) (f : List Nat) (st : ProtoSt) :
    ((doWrite w f st).2).closeCalls = st.closeCalls := rfl

theorem closeCalls_doPause (ms : Nat) (st : ProtoSt) :
    (doPause ms st).closeCalls = st.closeCalls := rfl

theorem closeCalls_doRead (st : ProtoSt) :
    (doRead st).closeCalls = st.closeCalls := rfl

theorem closeCalls_tryWriteRetries (w : Nat → Int) (f : List Nat) (st : ProtoSt) :
    ((tryWriteRetries w f st).2).closeCalls = st.closeCalls := by
  simp only [tryWriteRetries]
  split
  · rfl
  · split
    · rfl
    · rfl

theorem closeCalls_sendInitCommand (w : Nat → Int) (c : Nat) (st : ProtoSt) :
    ((sendInitCommand w c st).2).closeCalls = st.closeCalls := by
  simp only [sendInitCommand]
  split
  · exact closeCalls_tryWriteRetries w _ st
  · split
    · rw [closeCalls_doRead, closeCalls_tryWriteRetries]
    · exact closeCalls_tryWriteRetries w _ st

theorem closeCalls_sendWakeUpCommand (w : Nat → Int) (st : ProtoSt) :
    (sendWakeUpCommand w st).closeCalls = st.closeCalls := rfl

theorem closeCalls_runInitCmds (w : Nat → Int) (cmds : List Nat) :
    ∀ st : ProtoSt, ((runInitCmds w cmds st).2).closeCalls = st.closeCalls := by
  induction cmds with
  | nil => intro st; rfl
  | cons c rest ih =>
    intro st
    simp only [runInitCmds]
    split
    · rw [ih, closeCalls_doPause, closeCalls_sendInitCommand]
    · exact closeCalls_sendInitCommand w c st

theorem closeCalls_executeInitSequence (w : Nat → Int) (st : ProtoSt) :
    ((executeInitSequence w st).2).closeCalls = st.closeCalls := by
  simp only [executeInitSequence]
  rw [closeCalls_runInitCmds, closeCalls_doPause, closeCalls_sendWakeUpCommand]

theorem parseRecord_none_of_switch (line : List Char)
    (h : jsParseInt ((line.splitOn ',').getD 0 []) = some 7 ∨
         jsParseInt ((line.splitOn ',').getD 0 []) = some 9 ∨
         jsParseInt ((line.splitOn ',').getD 0 []) = some 6) :
    parseRecord line = none := by
  simp only [parseRecord]
  by_cases h8 : (line.splitOn ',').length < 8
  · rw [if_pos h8]
  · rw [if_neg h8, if_pos h]

theorem opcodesOf_append (a b : List Ev) :
    opcodesOf (a ++ b) = opcodesOf a ++ opcodesOf b := by
  simp [opcodesOf]

theorem opcodesOf_wr_hid (c : Nat) (r : Int) :
    opcodesOf [Ev.wr (createHIDFrame c none) r] = [c] := rfl

theorem opcodesOf_pause (ms : Nat) : opcodesOf [Ev.pause ms] = [] := rfl

theorem opcodesOf_rd : opcodesOf [Ev.rd] = [] := rfl

theorem opcodesOf_wr_hid_rd (c : Nat) (r : Int) :
    opcodesOf [Ev.wr (createHIDFrame c none) r, Ev.rd] = [c] := rfl

theorem opcodesOf_nil : opcodesOf [] = [] := rfl

theorem opcodesOf_cons_wr_hid (c : Nat) (r : Int) (tr : List Ev) :
    opcodesOf (Ev.wr (createHIDFrame c none) r :: tr) = c :: opcodesOf tr := rfl

theorem opcodesOf_cons_pause (ms : Nat) (tr : List Ev) :
    opcodesOf (Ev.pause ms :: tr) = opcodesOf tr := rfl

theorem opcodesOf_cons_rd (tr : List Ev) :
    opcodesOf (Ev.rd :: tr) = opcodesOf tr := rfl

theorem tryWriteRetries_first_success (w : Nat → Int) (f : List Nat) (st : ProtoSt)
    (h : 0 ≤ w st.wcount) :
    tryWriteRetries w f st =
      (w st.wcount,
       { st with wcount := st.wcount + 1,
                 trace := st.trace ++ [Ev.wr f (w st.wcount)] }) := by
  simp only [tryWriteRetries, doWrite]
  rw [if_pos h]

theorem sendInitCommand_success (w : Nat → Int) (c : Nat) (st : ProtoSt)
    (h : 0 ≤ w st.wcount) :
    (sendInitCommand w c st).1 = true ∧
    opcodesOf (sendInitCommand w c st).2.trace = opcodesOf st.trace ++ [c] ∧
    (sendInitCommand w c st).2.wcount = st.wcount + 1 := by
  have hnl : ¬ (w st.wcount < 0) := not_lt.mpr h
  simp only [sendInitCommand, tryWriteRetries_first_success w _ st h]
  rw [if_neg hnl]
  by_cases hc : c = 0
  · simp [hc, opcodesOf_append, opcodesOf_wr_hid]
  · simp [hc, doRead, opcodesOf_append, opcodesOf_wr_hid_rd]

theorem runInitCmds_success (w : Nat → Int) (hw : ∀ n, 0 ≤ w n) (cmds : List Nat) :
    ∀ st : ProtoSt,
      (runInitCmds w cmds st).1 = true ∧
      opcodesOf (runInitCmds w cmds st).2.trace = opcodesOf st.trace ++ cmds := by
  induction cmds with
  | nil => intro st; exact ⟨rfl, by simp [runInitCmds]⟩
  | cons c rest ih =>
    intro st
    obtain ⟨hres, htr, _⟩ := sendInitCommand_success w c st (hw st.wcount)
    simp only [runInitCmds, hres, if_pos]
    obtain ⟨ihres, ihtr⟩ := ih (doPause 1000 (sendInitCommand w c st).2)
    refine ⟨ihres, ?_⟩
    rw [ihtr]
    simp only [doPause, opcodesOf_append, opcodesOf_pause, List.append_nil, htr]
    simp

theorem sendWakeUpCommand_trace (w : Nat → Int) (st : ProtoSt) :
    opcodesOf (sendWakeUpCommand w st).trace = opcodesOf st.trace ++ [0] ∧
    (sendWakeUpCommand w st).wcount = st.wcount + 1 := by
  constructor
  · show opcodesOf (st.trace ++ [Ev.wr (createHIDFrame 0 none) (w st.wcount)]
        ++ [Ev.pause 500] ++ [Ev.rd]) = opcodesOf st.trace ++ [0]
    simp [opcodesOf_append, opcodesOf_cons_wr_hid, opcodesOf_cons_pause,
      opcodesOf_cons_rd, opcodesOf_nil]
  · rfl

theorem executeInitSequence_success (w : Nat → Int) (st : ProtoSt) (hw : ∀ n, 0 ≤ w n) :
    (executeInitSequence w st).1 = true ∧
    opcodesOf (executeInitSequence w st).2.trace =
      opcodesOf st.trace ++ [0x00, 0x04, 0x05, 0x15, 0x01, 0x00] := by
  obtain ⟨hwk, _⟩ := sendWakeUpCommand_trace w st
  obtain ⟨hres, htr⟩ :=
    runInitCmds_success w hw initSeqCmds (doPause 60000 (sendWakeUpCommand w st))
  refine ⟨hres, ?_⟩
  show opcodesOf (runInitCmds w initSeqCmds (doPause 60000 (sendWakeUpCommand w st))).2.trace = _
  rw [htr]
  simp only [doPause, opcodesOf_append, opcodesOf_pause, List.append_nil, hwk]
  simp [initSeqCmds]

theorem tryWriteRetries_all_fail (w : Nat → Int) (f : List Nat) (st : ProtoSt)
    (h : ∀ i, i < 3 → w (st.wcount + i) < 0) :
    (tryWriteRetries w f st).1 = w (st.wcount + 2) ∧
    (tryWriteRetries w f st).2.wcount = st.wcount + 3 ∧
    (tryWriteRetries w f st).2.trace = st.trace ++
      [Ev.wr f (w st.wcount), Ev.pause 1000, Ev.wr f (w (st.wcount + 1)),
       Ev.pause 1000, Ev.wr f (w (st.wcount + 2))] := by
  have h0 : w (st.wcount + 0) < 0 := h 0 (by omega)
  have h1 : w (st.wcount + 1) < 0 := h 1 (by omega)
  have h2 : w (st.wcount + 2) < 0 := h 2 (by omega)
  rw [Nat.add_zero] at h0
  have hn0 : ¬ (0 ≤ w st.wcount) := not_le.mpr h0
  have hn1 : ¬ (0 ≤ w (st.wcount + 1)) := not_le.mpr h1
  simp [tryWriteRetries, doWrite, doPause, hn0, hn1]

theorem sendInitCommand_all_fail (w : Nat → Int) (c : Nat) (st : ProtoSt)
    (h : ∀ i, i < 3 → w (st.wcount + i) < 0) :
    (sendInitCommand w c st).1 = false := by
  obtain ⟨hres, _, _⟩ := tryWriteRetries_all_fail w (createHIDFrame c none) st h
  have h2 : w (st.wcount + 2) < 0 := h 2 (by omega)
  simp only [sendInitCommand, hres]
  rw [if_pos (hres ▸ h2)]

theorem tryWriteRetries_wcount_bounds (w : Nat → Int) (f : List Nat) (st : ProtoSt) :
    st.wcount + 1 ≤ (tryWriteRetries w f st).2.wcount ∧
    (tryWriteRetries w f st).2.wcount ≤ st.wcount + 3 := by
  simp only [tryWriteRetries, doWrite, doPause]
  split <;> (try split) <;> simp

theorem sendInitCommand_wcount_bounds (w : Nat → Int) (c : Nat) (st : ProtoSt) :
    st.wcount + 1 ≤ (sendInitCommand w c st).2.wcount ∧
    (sendInitCommand w c st).2.wcount ≤ st.wcount + 3 := by
  obtain ⟨hlo, hhi⟩ := tryWriteRetries_wcount_bounds w (createHIDFrame c none) st
  simp only [sendInitCommand]
  split
  · exact ⟨hlo, hhi⟩
  · split
    · exact ⟨hlo, hhi⟩
    · exact ⟨hlo, hhi⟩

theorem connect_initFailed (w : Nat → Int) (st : ProtoSt)
    (h : (executeInitSequence w st).1 = false) :
    (connect { openOk := true, claimOk := true } w st).1
      = Except.error ConnectErr.initFailed := by
  simp [connect, h]

theorem startsWithList_self_append (p r : List Char) :
    startsWithList p (p ++ r) = true := by
  induction p with
  | nil => rfl
  | cons c cs ih => simp [startsWithList, ih]

theorem mem_dropWhile_of_neg {p : Char → Bool} {l : List Char} {c : Char}
    (hc : c ∈ l) (h : p c = false) : c ∈ l.dropWhile p := by
  induction l with
  | nil => cases hc
  | cons x xs ih =>
    by_cases hx : p x
    · rw [List.dropWhile_cons_of_pos hx]
      rcases List.mem_cons.mp hc with rfl | hmem
      · rw [hx] at h; cases h
      · exact ih hmem
    · rw [List.dropWhile_cons_of_neg hx]
      exact hc

theorem mem_jsTrim {s : List Char} {c : Char} (hc : c ∈ s)
    (h : isJsSpace c = false) : c ∈ jsTrim s := by
  unfold jsTrim
  apply List.mem_reverse.mpr
  apply mem_dropWhile_of_neg _ h
  apply List.mem_reverse.mpr
  exact mem_dropWhile_of_neg hc h

theorem jsTrim_isEmpty_false {s : List Char} {c : Char} (hc : c ∈ s)
    (h : isJsSpace c = false) : (jsTrim s).isEmpty = false := by
  have hmem := mem_jsTrim hc h
  cases hts : jsTrim s with
  | nil => rw [hts] at hmem; cases hmem
  | cons a l => rfl

theorem takeWhile_all_eq {p : Char → Bool} {l : List Char}
    (h : ∀ c ∈ l, p c = true) : l.takeWhile p = l := by
  induction l with
  | nil => rfl
  | cons x xs ih =>
    rw [List.takeWhile_cons_of_pos (h x (by simp))]
    rw [ih (fun c hc => h c (by simp [hc]))]

theorem matchTextResponse_none_of_no_cr {s : List Char}
    (h : ∀ c ∈ s, c ≠ '\r') : matchTextResponse s = none := by
  have ht : s.takeWhile (fun c => c ≠ '\r') = s :=
    takeWhile_all_eq (fun c hc => by simp [h c hc])
  simp only [matchTextResponse, ht, List.drop_length]
  rfl

theorem parseTextResponse_none_of_match_none {s : List Char}
    (h : matchTextResponse s = none) : parseTextResponse s = none := by
  simp [parseTextResponse, h]

theorem splitOnCRLF_of_no_cr : ∀ s : List Char,
    (∀ c ∈ s, c ≠ '\r') → splitOnCRLF s = [s] := by
  intro s
  induction s with
  | nil => intro _; rfl
  | cons c rest ih =>
    intro h
    have hc : c ≠ '\r' := h c (by simp)
    have hrest : ∀ x ∈ rest, x ≠ '\r' := fun x hx => h x (by simp [hx])
    have hstep : splitOnCRLF (c :: rest) =
        match splitOnCRLF rest with
        | [] => [[c]]
        | seg :: segs => (c :: seg) :: segs := by
      rw [splitOnCRLF.eq_def]
      split
      · rename_i heq; cases heq
      · rename_i heq
        injection heq with h1 _
        exact absurd h1 hc
      · rename_i u cc tl hcond heqn
        injection heqn with h1 h2
        subst h1; subst h2
        rfl
    rw [hstep, ih hrest]

theorem takeWhile_cr_append (data rest : List Char)
    (hnc : ∀ c ∈ data, c ≠ '\r') :
    (data ++ ('\r' :: rest)).takeWhile (fun c => c ≠ '\r') = data := by
  induction data with
  | nil =>
    rw [List.nil_append, List.takeWhile_cons_of_neg]
    simp
  | cons x xs ih =>
    rw [List.cons_append,
      List.takeWhile_cons_of_pos (by simp [hnc x (by simp)]),
      ih (fun c hc => hnc c (by simp [hc]))]

theorem matchTextResponse_ok_response (data cks : List Char)
    (hnc : ∀ c ∈ data, c ≠ '\r') (hlen : cks.length = 8)
    (hhex : cks.all isHexUpper = true) :
    matchTextResponse
        (data ++ ("\r\nCKSM:").toList ++ cks ++ ("\r\nCMD OK\r\n").toList)
      = some (data, cks, ("OK").toList) := by
  have h0 : data ++ ("\r\nCKSM:").toList ++ cks ++ ("\r\nCMD OK\r\n").toList
      = data ++ (("\r\nCKSM:").toList ++ (cks ++ ("\r\nCMD OK\r\n").toList)) := by
    simp [List.append_assoc]
  have h1 : (("\r\nCKSM:").toList : List Char) ++ (cks ++ ("\r\nCMD OK\r\n").toList)
      = '\r' :: (("\nCKSM:").toList ++ (cks ++ ("\r\nCMD OK\r\n").toList)) := rfl
  rw [h0, h1]
  simp only [matchTextResponse]
  rw [takeWhile_cr_append data _ hnc, List.drop_left, ← h1,
    if_pos (startsWithList_self_append _ _),
    List.drop_left' (show (("\r\nCKSM:").toList : List Char).length = 7 from rfl),
    List.take_left' hlen, List.drop_left' hlen,
    if_pos (by simp [hlen, hhex]),
    if_pos (show startsWithList (("\r\nCMD ").toList)
      (("\r\nCMD OK\r\n").toList) = true by decide)]
  rw [if_pos (show startsWithList (("OK\r\n").toList)
      ((("\r\nCMD OK\r\n").toList : List Char).drop 6) = true by decide)]

theorem char_toNat_ofNat_printable {b : Nat} (h1 : 32 ≤ b) (h2 : b ≤ 126) :
    (Char.ofNat b).toNat = b := by
  interval_cases b <;> decide

/-! ## Claim theorems -/

/-- C1: every record line whose type field parses to 7, 9 or 6 and which has
at least 8 comma-separated fields is turned into `null` by `parseRecord`
(the `switch` assigns to the `const` binding, the `TypeError` is caught), so
`processRecords` never emits a glucose, ketone or time-change record; lines
with any other type code and at least 8 fields are emitted carrying just the
common fields (`BaseRecord` has only the common header fields). -/
theorem claim1_glucose_ketone_timechange_dropped :
    (∀ line : List Char,
        8 ≤ (line.splitOn ',').length →
        (jsParseInt ((line.splitOn ',').getD 0 []) = some 7 ∨
         jsParseInt ((line.splitOn ',').getD 0 []) = some 9 ∨
         jsParseInt ((line.splitOn ',').getD 0 []) = some 6) →
        parseRecord line = none) ∧
    (∀ (rs : List (List Char)) (r : BaseRecord), r ∈ processRecords rs →
        r.rtype ≠ some 7 ∧ r.rtype ≠ some 9 ∧ r.rtype ≠ some 6) ∧
    (∀ line : List Char,
        8 ≤ (line.splitOn ',').length →
        ¬ (jsParseInt ((line.splitOn ',').getD 0 []) = some 7 ∨
           jsParseInt ((line.splitOn ',').getD 0 []) = some 9 ∨
           jsParseInt ((line.splitOn ',').getD 0 []) = some 6) →
        (parseRecord line).isSome = true) := by
  refine ⟨?_, ?_, ?_⟩
  · intro line _ hty
    exact parseRecord_none_of_switch line hty
  · intro rs r hmem
    rw [processRecords, List.mem_filterMap] at hmem
    obtain ⟨line, _, hline⟩ := hmem
    simp only [parseRecord] at hline
    by_cases h8 : (line.splitOn ',').length < 8
    · rw [if_pos h8] at hline; cases hline
    · rw [if_neg h8] at hline
      by_cases hty : jsParseInt ((line.splitOn ',').getD 0 []) = some 7 ∨
          jsParseInt ((line.splitOn ',').getD 0 []) = some 9 ∨
          jsParseInt ((line.splitOn ',').getD 0 []) = some 6
      · rw [if_pos hty] at hline; cases hline
      · rw [if_neg hty] at hline
        injection hline with hr
        push_neg at hty
        rw [← hr]
        exact ⟨hty.1, hty.2.1, hty.2.2⟩
  · intro line h8 hty
    simp only [parseRecord]
    rw [if_neg (by omega), if_neg hty]
    rfl

/-- C1 witness: a ketone line (type 9, ten fields) is dropped. -/
theorem claim1_witness :
    parseRecord (("9,1,6,15,24,10,30,0,5,1").toList) = none :=
  claim1_glucose_ketone_timechange_dropped.1 _ (by decide)
    (Or.inr (Or.inl (by decide)))

/-- C2 counterexample: with a transport that opens and claims fine, lets the
wake-up and the first init command through and then fails every write, the
three attempts for init command `0x05` are exhausted and `connect` fails
with the initialization error — but `closeDevice` is called zero times, not
exactly once as the claim states. -/
theorem claim2_counterexample :
    (connect { openOk := true, claimOk := true } failTransport st0).1
        = Except.error ConnectErr.initFailed ∧
    (connect { openOk := true, claimOk := true } failTransport st0).2.closeCalls = 0 ∧
    (connect { openOk := true, claimOk := true } failTransport st0).2.closeCalls ≠ 1 :=
  ⟨rfl, rfl, by decide⟩

/-- C2 amended: `connect` releases the transport handle zero times — its
`catch` block only resets `isConnected` and rethrows, so on every path
(success or any failure, including the exhausted init handshake) the number
of `closeDevice` calls is unchanged and the device is left open. -/
theorem claim2_connect_never_closes :
    ∀ (u : UsbFlags) (w : Nat → Int) (st : ProtoSt),
      (connect u w st).2.closeCalls = st.closeCalls := by
  intro u w st
  simp only [connect]
  split
  · rfl
  · split
    · rfl
    · split
      · exact closeCalls_executeInitSequence w st
      · split
        · rw [closeCalls_doWrite, closeCalls_executeInitSequence]
        · rw [closeCalls_doWrite, closeCalls_executeInitSequence]

/-- C3 counterexample: a batch with one normal glucose line and one
control-solution glucose line does not yield exactly one record. -/
theorem claim3_counterexample :
    (processRecords [glucoseNormalLine, glucoseControlLine]).length ≠ 1 := by
  decide

/-- C3 amended: the batch yields zero records, not one — the
control-solution line is indeed never emitted, but the normal glucose line
is dropped as well, because every type-7 line makes `parseRecord` return
`null` (the `const` reassignment `TypeError`). -/
theorem claim3_all_type7_dropped :
    ∀ rs : List (List Char),
      (∀ l ∈ rs, jsParseInt ((l.splitOn ',').getD 0 []) = some 7) →
      processRecords rs = [] := by
  intro rs
  induction rs with
  | nil => intro _; rfl
  | cons l rest ih =>
    intro h
    have hl : parseRecord l = none :=
      parseRecord_none_of_switch l (Or.inl (h l (by simp)))
    have hrest := ih (fun x hx => h x (by simp [hx]))
    show List.filterMap parseRecord (l :: rest) = []
    simp only [List.filterMap_cons, hl]
    exact hrest

/-- C3 witness: the concrete normal/control batch yields the empty list. -/
theorem claim3_witness :
    processRecords [glucoseNormalLine, glucoseControlLine] = [] :=
  claim3_all_type7_dropped _ (by decide)

/-- C4 counterexample: the HI glucose line yields no record at all (and in
particular no record with value 501). -/
theorem claim4_counterexample :
    parseRecord glucoseHiLine = none := by decide

/-- C4 amended: both the HI line and the LO line yield `null`: every type-7
line is dropped by `parseRecord` (const reassignment `TypeError`); moreover
even `processGlucoseRecord` taken alone drops both lines, because it reads
the value from field 8 (which in these lines is `"0"`, not the `"HI"`/`"LO"`
at field 7) and field 10 is `0`, which marks a control solution. -/
theorem claim4_hi_lo_lines_dropped :
    parseRecord glucoseHiLine = none ∧
    parseRecord glucoseLoLine = none ∧
    (∀ base : BaseRecord,
      processGlucoseRecord (glucoseHiLine.splitOn ',') base = none) ∧
    (∀ base : BaseRecord,
      processGlucoseRecord (glucoseLoLine.splitOn ',') base = none) :=
  ⟨by decide, by decide, fun _ => rfl, fun _ => rfl⟩

/-- C5: under a transport whose writes all succeed the handshake succeeds and
writes exactly the wake-up opcode `0x00` followed by the five init opcodes
`0x04, 0x05, 0x15, 0x01, 0x00` in that order; when three consecutive writes
fail the retry loop performs exactly three writes separated by the fixed
1000 ms delay and `sendInitCommand` reports failure; every `sendInitCommand`
performs between 1 and 3 writes; and a failed handshake makes the whole
`connect` fail with the initialization error. -/
theorem claim5_init_sequence_and_retries :
    (∀ (w : Nat → Int) (st : ProtoSt), (∀ n, 0 ≤ w n) →
        (executeInitSequence w st).1 = true ∧
        opcodesOf (executeInitSequence w st).2.trace =
          opcodesOf st.trace ++ [0x00, 0x04, 0x05, 0x15, 0x01, 0x00]) ∧
    (∀ (w : Nat → Int) (f : List Nat) (st : ProtoSt),
        (∀ i, i < 3 → w (st.wcount + i) < 0) →
        (tryWriteRetries w f st).2.trace = st.trace ++
          [Ev.wr f (w st.wcount), Ev.pause 1000, Ev.wr f (w (st.wcount + 1)),
           Ev.pause 1000, Ev.wr f (w (st.wcount + 2))]) ∧
    (∀ (w : Nat → Int) (c : Nat) (st : ProtoSt),
        (∀ i, i < 3 → w (st.wcount + i) < 0) →
        (sendInitCommand w c st).1 = false) ∧
    (∀ (w : Nat → Int) (c : Nat) (st : ProtoSt),
        st.wcount + 1 ≤ (sendInitCommand w c st).2.wcount ∧
        (sendInitCommand w c st).2.wcount ≤ st.wcount + 3) ∧
    (∀ (w : Nat → Int) (st : ProtoSt),
        (executeInitSequence w st).1 = false →
        (connect { openOk := true, claimOk := true } w st).1
          = Except.error ConnectErr.initFailed) :=
  ⟨fun w st hw => executeInitSequence_success w st hw,
   fun w f st h => (tryWriteRetries_all_fail w f st h).2.2,
   sendInitCommand_all_fail,
   sendInitCommand_wcount_bounds,
   connect_initFailed⟩

/-- C5 witness: with an always-succeeding transport the opcodes written from
the initial state are exactly the wake-up followed by the init sequence. -/
theorem claim5_witness :
    opcodesOf (executeInitSequence (fun _ => 64) st0).2.trace
      = [0x00, 0x04, 0x05, 0x15, 0x01, 0x00] := by
  have h := claim5_init_sequence_and_retries.1 (fun _ => 64) st0
    (fun _ => by show (0 : Int) ≤ 64; decide)
  simpa [st0, opcodesOf] using h.2

/-- C6 counterexample: on the non-matching input `"HELLO\r\nX"`, whose first
CR-LF-delimited segment `"HELLO"` is non-empty, `parseTextResponse` returns
`null` instead of the claimed lenient fallback data. -/
theorem claim6_counterexample :
    matchTextResponse (("HELLO\r\nX").toList) = none ∧
    (splitOnCRLF (("HELLO\r\nX").toList)).headD [] = ("HELLO").toList ∧
    parseTextResponse (("HELLO\r\nX").toList) = none :=
  ⟨by decide, by decide, by decide⟩

/-- C6 amended: `parseTextResponse` has no lenient fallback at all — on
every input that does not match the response pattern it returns `null`,
whatever the first CR-LF-delimited segment contains. -/
theorem claim6_no_lenient_fallback :
    ∀ s : List Char, matchTextResponse s = none → parseTextResponse s = none :=
  fun _ h => parseTextResponse_none_of_match_none h

/-- C6 witness: another non-matching input with a non-empty first segment
still yields `null`. -/
theorem claim6_witness :
    parseTextResponse (("JUNK\r\n!!").toList) = none :=
  claim6_no_lenient_fallback _ (by decide)

/-- C7 counterexample: the mismatching-checksum response parses to exactly
the same untagged value as the matching-checksum response (`sum of "DATA"`
is 68 = 0x44), so the result carries no `checksumMismatch=true` tag — the
code never computes or compares the checksum. -/
theorem claim7_counterexample :
    parseTextResponse (("DATA\r\nCKSM:00000000\r\nCMD OK\r\n").toList)
        = some (("DATA").toList) ∧
    parseTextResponse (("DATA\r\nCKSM:00000000\r\nCMD OK\r\n").toList)
        = parseTextResponse (("DATA\r\nCKSM:00000044\r\nCMD OK\r\n").toList) :=
  ⟨by decide, by decide⟩

/-- C7 amended: for every well-formed OK response the data is returned
unconditionally — the checksum field (any 8 uppercase hex digits) never
influences the result, is never validated, and no mismatch tag exists in
the return value. -/
theorem claim7_checksum_never_validated :
    ∀ data cks : List Char,
      (∀ c ∈ data, c ≠ '\r') → cks.length = 8 → cks.all isHexUpper = true →
      parseTextResponse
          (data ++ ("\r\nCKSM:").toList ++ cks ++ ("\r\nCMD OK\r\n").toList)
        = some data := by
  intro data cks hnc hlen hhex
  have hm := matchTextResponse_ok_response data cks hnc hlen hhex
  have hC : ('C' : Char) ∈ data ++ ("\r\nCKSM:").toList ++ cks
      ++ ("\r\nCMD OK\r\n").toList :=
    List.mem_append_left _ (List.mem_append_left _
      (List.mem_append_right _ (by decide)))
  have hne := jsTrim_isEmpty_false hC (by decide)
  have hne' : ¬ ((jsTrim (data ++ ("\r\nCKSM:").toList ++ cks
      ++ ("\r\nCMD OK\r\n").toList)).isEmpty = true) := by
    rw [hne]; exact Bool.false_ne_true
  unfold parseTextResponse
  rw [if_neg hne', hm]
  simp

/-- C7 witness: the concrete mismatching-checksum response, written in the
appended form of the amended theorem, still parses to the data. -/
theorem claim7_witness :
    parseTextResponse ((("DATA").toList) ++ ("\r\nCKSM:").toList
        ++ (("00000000").toList) ++ ("\r\nCMD OK\r\n").toList)
      = some (("DATA").toList) :=
  claim7_checksum_never_validated _ _ (by decide) (by decide) (by decide)

/-- C8 counterexample: a 63-byte payload does not fail with any error — a
64-byte frame is produced, with byte 1 set to 63 and the payload silently
truncated to its first 62 bytes. -/
theorem claim8_counterexample :
    createHIDFrame 7 (some (List.replicate 63 1)) = 7 :: 63 :: List.replicate 62 1 ∧
    (createHIDFrame 7 (some (List.replicate 63 1))).length = 64 :=
  ⟨by decide, by decide⟩

/-- C8 amended: for payloads of at most 62 bytes the frame is exactly as the
claim describes (64 bytes, byte 0 the opcode, byte 1 the payload length — 0
when empty — payload from offset 2, zero padding); for longer payloads no
error is raised: the frame is still 64 bytes, byte 1 holds the full payload
length, and only the first 62 payload bytes are copied. -/
theorem claim8_frame_layout :
    ∀ (op : Nat) (payload : List Nat),
      (payload.length ≤ 62 →
        (createHIDFrame op (some payload)).length = 64 ∧
        (createHIDFrame op (some payload)).headD 0 = op ∧
        (createHIDFrame op (some payload)).getD 1 0 = payload.length ∧
        (createHIDFrame op (some payload)).drop 2
          = payload ++ List.replicate (62 - payload.length) 0) ∧
      (62 < payload.length →
        (createHIDFrame op (some payload)).length = 64 ∧
        (createHIDFrame op (some payload)).getD 1 0 = payload.length ∧
        (createHIDFrame op (some payload)).drop 2 = payload.take 62) := by
  intro op payload
  constructor
  · intro h
    cases payload with
    | nil => exact ⟨rfl, rfl, rfl, rfl⟩
    | cons p ps =>
      have hpos : 0 < (p :: ps).length := by simp
      simp only [createHIDFrame, if_pos hpos]
      rw [List.take_of_length_le h]
      refine ⟨?_, rfl, rfl, rfl⟩
      have h' : ps.length + 1 ≤ 62 := by simpa using h
      simp [List.length_append, List.length_replicate, List.length_cons]
      omega
  · intro h
    cases payload with
    | nil => simp at h
    | cons p ps =>
      have hpos : 0 < (p :: ps).length := by simp
      simp only [createHIDFrame, if_pos hpos]
      rw [Nat.sub_eq_zero_of_le (le_of_lt h)]
      refine ⟨?_, rfl, by simp⟩
      have h' : 62 < ps.length + 1 := by simpa using h
      simp [List.length_append, List.length_take, List.length_cons]
      omega

/-- C8 witness: a 3-byte payload sits at offset 2 with zero padding and its
length in byte 1. -/
theorem claim8_witness :
    (createHIDFrame 9 (some [1, 2, 3])).drop 2 = [1, 2, 3] ++ List.replicate 59 0 ∧
    (createHIDFrame 9 (some [1, 2, 3])).getD 1 0 = 3 := by
  have h := (claim8_frame_layout 9 [1, 2, 3]).1 (by decide)
  exact ⟨h.2.2.2, h.2.2.1⟩

/-- C9: `disconnect` is idempotent — one call releases the handle at most
once, a second call releases nothing (the device reference is cleared), and
a disconnect on a session with no device reference performs no release; the
body is total (never throws, with the transport's `close` returning a
boolean as its interface declares). -/
theorem claim9_disconnect_idempotent :
    ∀ s : DriverState,
      (disconnect s).closeCalls ≤ s.closeCalls + 1 ∧
      (disconnect (disconnect s)).closeCalls = (disconnect s).closeCalls ∧
      (disconnect s).hasDevice = false ∧
      (s.hasDevice = false → (disconnect s).closeCalls = s.closeCalls) := by
  intro s
  by_cases h : s.hasDevice <;> simp [disconnect, h, Nat.le_succ]

/-- C9 witness: disconnecting twice from a connected session counts exactly
one release. -/
theorem claim9_witness :
    (disconnect (disconnect
        { hasDevice := true, isConnected := true, closeCalls := 0 })).closeCalls
      = (disconnect
        { hasDevice := true, isConnected := true, closeCalls := 0 }).closeCalls :=
  (claim9_disconnect_idempotent _).2.1

/-- C10: every string returned by `requestTextResponse` contains only
printable ASCII characters 32..126 — in particular no CR and no LF — so
splitting it on CR LF yields a single segment and the response-pattern
parser can never match it. -/
theorem claim10_printable_ascii :
    ∀ (isInit : Bool) (writeRes : Int) (readResp : List Nat) (s : List Char),
      requestTextResponse isInit writeRes readResp = Except.ok s →
      (∀ c ∈ s, 32 ≤ c.toNat ∧ c.toNat ≤ 126) ∧
      '\r' ∉ s ∧ '\n' ∉ s ∧
      splitOnCRLF s = [s] ∧
      parseTextResponse s = none := by
  intro ini wres rresp s h
  simp only [requestTextResponse] at h
  split at h
  · cases h
  split at h
  · cases h
  split at h
  · cases h
  injection h with h
  subst h
  have hmain : ∀ c ∈ bytesToText rresp, 32 ≤ c.toNat ∧ c.toNat ≤ 126 := by
    intro c hc
    simp only [bytesToText, List.mem_map] at hc
    obtain ⟨b, hb, rfl⟩ := hc
    rw [List.mem_filter] at hb
    obtain ⟨-, hcond⟩ := hb
    simp only [Bool.and_eq_true, decide_eq_true_eq] at hcond
    obtain ⟨hb1, hb2⟩ := hcond
    rw [char_toNat_ofNat_printable hb1 hb2]
    exact ⟨hb1, hb2⟩
  have hcr : '\r' ∉ bytesToText rresp := by
    intro hmem
    have h32 := (hmain _ hmem).1
    have h13 : ('\r').toNat = 13 := rfl
    rw [h13] at h32
    omega
  have hlf : '\n' ∉ bytesToText rresp := by
    intro hmem
    have h32 := (hmain _ hmem).1
    have h10 : ('\n').toNat = 10 := rfl
    rw [h10] at h32
    omega
  have hnocr : ∀ c ∈ bytesToText rresp, c ≠ '\r' :=
    fun c hc he => hcr (he ▸ hc)
  exact ⟨hmain, hcr, hlf, splitOnCRLF_of_no_cr _ hnocr,
    parseTextResponse_none_of_match_none (matchTextResponse_none_of_no_cr hnocr)⟩

/-- C10 witness: the bytes `[72, 73]` come back as the plain text `"HI"`,
which contains no CR LF and never matches the response pattern. -/
theorem claim10_witness :
    parseTextResponse (("HI").toList) = none ∧
    splitOnCRLF (("HI").toList) = [("HI").toList] := by
  have h := claim10_printable_ascii true 64 [72, 73] (("HI").toList) (by rfl)
  exact ⟨h.2.2.2.2, h.2.2.2.1⟩

end NeoDriver
